import Mathlib

/-!
Shallow embedding of the persisted-configuration subsystem
(`src/electron/ConfigHelper.ts` of the IC repository).

The embedding models:
  - `Config` — the seven-field configuration record;
  - `PartialConfig` — a `Partial<Config>` (every field optional), also used
    as the shape of a parsed on-disk JSON document;
  - the on-disk state as `Option PartialConfig` (`none` = file absent or
    unparseable JSON, `some doc` = the parsed document);
  - `sanitizeModelSelection`, `loadConfig`, `saveConfig`, `updateConfig`,
    `getOpacity`, `setOpacity` following the source line by line.

JavaScript truthiness on strings (`if (config.extractionModel)`,
`updates.apiProvider || currentConfig.apiProvider`) is modelled by testing
the string against `""`; a field that is absent is `none`.  Numbers are
modelled as rationals.  `updateConfig` takes an extra flag `emitThrows`
modelling a subscriber of the `config-updated` event that throws during the
synchronous notification: in the source this is the one step inside
`updateConfig`'s try block that can raise (both `loadConfig` and
`saveConfig` swallow their own errors), and the catch branch then returns
`this.defaultConfig`.
-/

/-- The `Config` interface of `ConfigHelper.ts` (seven fields, all present). -/
structure Config where
  apiKey : String
  apiProvider : String
  extractionModel : String
  solutionModel : String
  debuggingModel : String
  language : String
  opacity : ℚ
deriving Repr, DecidableEq

/-- `Partial<Config>`: every field optional.  Also the shape of a parsed
on-disk JSON document (extraneous keys are irrelevant to the typed fields). -/
structure PartialConfig where
  apiKey : Option String := none
  apiProvider : Option String := none
  extractionModel : Option String := none
  solutionModel : Option String := none
  debuggingModel : Option String := none
  language : Option String := none
  opacity : Option ℚ := none
deriving Repr, DecidableEq

/-- The compiled-in `defaultConfig` (ConfigHelper.ts lines 20-28). -/
def defaultConfig : Config :=
  { apiKey := ""
    apiProvider := "openai"
    extractionModel := "gpt-5"
    solutionModel := "gpt-5"
    debuggingModel := "gpt-5"
    language := "python"
    opacity := 1 }

/-- JavaScript truthiness of an optional string field: present and nonempty. -/
def truthy (s : Option String) : Bool :=
  match s with
  | some x => x ≠ ""
  | none => false

/-- Strip leading and trailing whitespace from a character list. -/
def trimChars (l : List Char) : List Char :=
  ((l.dropWhile Char.isWhitespace).reverse.dropWhile Char.isWhitespace).reverse

/-- Model of the JavaScript built-in `String.prototype.trim` used at
ConfigHelper.ts line 179 (whitespace stripped from both ends). -/
def jsTrim (s : String) : String := ⟨trimChars s.data⟩

/-- Character-list prefix test. -/
def startsWithChars : List Char → List Char → Bool
  | _, [] => true
  | [], _ :: _ => false
  | c :: cs, d :: ds => c = d && startsWithChars cs ds

/-- Model of the JavaScript built-in `String.prototype.startsWith` used at
ConfigHelper.ts line 179. -/
def jsStartsWith (s pre : String) : Bool := startsWithChars s.data pre.data

/-- `sanitizeModelSelection` (ConfigHelper.ts lines 61-99): per-provider
allow-list with a per-provider fallback; unknown providers pass the model
through unchanged. -/
def sanitizeModelSelection (model : String) (provider : String) : String :=
  if provider = "openai" then
    if ["gpt-4o", "gpt-4o-mini", "gpt-5"].contains model then model
    else "gpt-5"
  else if provider = "gemini" then
    if ["gemini-1.5-pro", "gemini-2.0-flash"].contains model then model
    else "gemini-2.0-flash"
  else if provider = "anthropic" then
    if ["claude-3-7-sonnet-20250219", "claude-3-5-sonnet-20241022",
        "claude-3-opus-20240229"].contains model then model
    else "claude-3-7-sonnet-20250219"
  else model

/-- The allow-list table of §4.3 of the spec, used to state properties of
`sanitizeModelSelection` (the function itself is embedded from the source). -/
def allowedModels (provider : String) : List String :=
  if provider = "openai" then ["gpt-4o", "gpt-4o-mini", "gpt-5"]
  else if provider = "gemini" then ["gemini-1.5-pro", "gemini-2.0-flash"]
  else if provider = "anthropic" then
    ["claude-3-7-sonnet-20250219", "claude-3-5-sonnet-20241022",
     "claude-3-opus-20240229"]
  else []

/-- The per-provider fallback model of §4.3 of the spec. -/
def fallbackModel (provider : String) : String :=
  if provider = "openai" then "gpt-5"
  else if provider = "gemini" then "gemini-2.0-flash"
  else if provider = "anthropic" then "claude-3-7-sonnet-20250219"
  else ""

/-- Sanitization step applied to an optional model field, guarded by JS
truthiness (`if (config.extractionModel) { ... }`): an absent or empty
field is left untouched. -/
def sanitizeField (field : Option String) (provider : String) :
    Option String :=
  field.map (fun m => if m ≠ "" then sanitizeModelSelection m provider else m)

/-- The body of `loadConfig` on a successfully parsed document
(ConfigHelper.ts lines 105-139): normalize `apiProvider` (invalid or missing
values become `"gemini"`), sanitize the truthy model fields against the
normalized provider, then spread the document over `defaultConfig`. -/
def loadConfigDoc (doc : PartialConfig) : Config :=
  let provider :=
    match doc.apiProvider with
    | some p =>
        if p = "openai" ∨ p = "gemini" ∨ p = "anthropic" then p else "gemini"
    | none => "gemini"
  let em := sanitizeField doc.extractionModel provider
  let sm := sanitizeField doc.solutionModel provider
  let dm := sanitizeField doc.debuggingModel provider
  { apiKey := doc.apiKey.getD defaultConfig.apiKey
    apiProvider := provider
    extractionModel := em.getD defaultConfig.extractionModel
    solutionModel := sm.getD defaultConfig.solutionModel
    debuggingModel := dm.getD defaultConfig.debuggingModel
    language := doc.language.getD defaultConfig.language
    opacity := doc.opacity.getD defaultConfig.opacity }

/-- `loadConfig` (ConfigHelper.ts lines 101-149) on the disk state:
an absent file and a parse error both yield `defaultConfig`. -/
def loadConfig (disk : Option PartialConfig) : Config :=
  match disk with
  | some doc => loadConfigDoc doc
  | none => defaultConfig

/-- `saveConfig` (ConfigHelper.ts lines 154-166): serializing a full
`Config` yields a document in which every field is present. -/
def saveConfig (c : Config) : PartialConfig :=
  { apiKey := some c.apiKey
    apiProvider := some c.apiProvider
    extractionModel := some c.extractionModel
    solutionModel := some c.solutionModel
    debuggingModel := some c.debuggingModel
    language := some c.language
    opacity := some c.opacity }

/-- Shallow merge `{...currentConfig, ...updates}` (ConfigHelper.ts
line 220). -/
def mergeConfig (c : Config) (u : PartialConfig) : Config :=
  { apiKey := u.apiKey.getD c.apiKey
    apiProvider := u.apiProvider.getD c.apiProvider
    extractionModel := u.extractionModel.getD c.extractionModel
    solutionModel := u.solutionModel.getD c.solutionModel
    debuggingModel := u.debuggingModel.getD c.debuggingModel
    language := u.language.getD c.language
    opacity := u.opacity.getD c.opacity }

/-- Result of one `updateConfig` call: the returned configuration, the new
disk state, whether the `config-updated` event was emitted, and the final
(mutated) updates object. -/
structure UpdateResult where
  ret : Config
  disk : Option PartialConfig
  emitted : Bool
  finalUpdates : PartialConfig
deriving Repr, DecidableEq

/-- Whether the auto-detection branch of `updateConfig` is entered
(ConfigHelper.ts line 177): a truthy `apiKey` together with a falsy
`apiProvider` in the updates. -/
def autodetecting (u : PartialConfig) : Bool :=
  truthy u.apiKey && !(truthy u.apiProvider)

/-- The effective provider of an `updateConfig` call: the local variable
`provider` after lines 174-182.  It starts as
`updates.apiProvider || currentConfig.apiProvider` and is reassigned to
`"openai"` when the trimmed key starts with the prefix `sk-` inside the
auto-detection branch. -/
def effectiveProvider (cur : Config) (u : PartialConfig) : String :=
  let provider0 :=
    match u.apiProvider with
    | some p => if p ≠ "" then p else cur.apiProvider
    | none => cur.apiProvider
  if autodetecting u && jsStartsWith (jsTrim (u.apiKey.getD "")) "sk-" then
    "openai"
  else provider0

/-- Auto-detection branch (ConfigHelper.ts lines 177-186): whenever the
branch is entered, the resolved provider is recorded back into the updates
object (line 185), whether or not the key matched the `sk-` prefix. -/
def recordProvider (cur : Config) (u : PartialConfig) : PartialConfig :=
  if autodetecting u then
    { u with apiProvider := some (effectiveProvider cur u) }
  else u

/-- The provider-switch guard of ConfigHelper.ts line 189-192: the updates
carry a truthy provider different from the stored one. -/
def switchingProvider (cur : Config) (u : PartialConfig) : Bool :=
  match u.apiProvider with
  | some p => p ≠ "" && p ≠ cur.apiProvider
  | none => false

/-- Provider-switch reset (ConfigHelper.ts lines 188-198): when the updates
carry a truthy provider different from the stored one, the three model
fields are reset — but only the `"openai"` branch exists in the source. -/
def applySwitchReset (cur : Config) (u : PartialConfig) : PartialConfig :=
  if switchingProvider cur u && (u.apiProvider == some "openai") then
    { u with
        extractionModel := some "gpt-5"
        solutionModel := some "gpt-5"
        debuggingModel := some "gpt-5" }
  else u

/-- Sanitization of the truthy model fields present in the updates against
the effective provider (ConfigHelper.ts lines 200-218). -/
def sanitizeUpdates (u : PartialConfig) (provider : String) : PartialConfig :=
  { u with
      extractionModel := sanitizeField u.extractionModel provider
      solutionModel := sanitizeField u.solutionModel provider
      debuggingModel := sanitizeField u.debuggingModel provider }

/-- The updates object as it stands after the in-place mutations of
`updateConfig` (auto-detection recording, provider-switch reset,
sanitization), ready to be spread over the current configuration. -/
def mutatedUpdates (cur : Config) (u : PartialConfig) : PartialConfig :=
  sanitizeUpdates (applySwitchReset cur (recordProvider cur u))
    (effectiveProvider cur u)

/-- The emit guard of `updateConfig` (ConfigHelper.ts lines 225-232): the
event fires when any field other than `opacity` is defined in the (mutated)
updates object. -/
def willEmit (u : PartialConfig) : Bool :=
  u.apiKey.isSome || u.apiProvider.isSome || u.extractionModel.isSome ||
  u.solutionModel.isSome || u.debuggingModel.isSome || u.language.isSome

/-- `updateConfig` (ConfigHelper.ts lines 171-241).

`emitThrows = true` models a subscriber that throws during the synchronous
`config-updated` notification; in that case the catch branch returns
`this.defaultConfig` (line 239), though the new configuration was already
saved to disk before the notification was attempted.  Both `loadConfig` and
`saveConfig` swallow their own errors, so the notification is the one step
inside the try block of `updateConfig` that can raise. -/
def updateConfig (disk : Option PartialConfig) (updates : PartialConfig)
    (emitThrows : Bool) : UpdateResult :=
  let currentConfig := loadConfig disk
  let u3 := mutatedUpdates currentConfig updates
  let newConfig := mergeConfig currentConfig u3
  { ret := if emitThrows && willEmit u3 then defaultConfig else newConfig
    disk := some (saveConfig newConfig)
    emitted := willEmit u3
    finalUpdates := u3 }

/-- `getOpacity` (ConfigHelper.ts lines 254-257): the loaded configuration's
opacity (the load pipeline backfills `1.0` when the stored field is absent). -/
def getOpacity (disk : Option PartialConfig) : ℚ :=
  (loadConfig disk).opacity

/-- `setOpacity` (ConfigHelper.ts lines 262-266): clamp to `[0.1, 1.0]` and
store through `updateConfig`. -/
def setOpacity (disk : Option PartialConfig) (opacity : ℚ) : UpdateResult :=
  let validOpacity := min 1 (max (1/10) opacity)
  updateConfig disk { opacity := some validOpacity } false

/-- Provider validity predicate of the normalization step in `loadConfig`. -/
def isValidProvider (p : String) : Bool :=
  p = "openai" || p = "gemini" || p = "anthropic"

/-- A stored gemini configuration document, used as a concrete input for
the auto-detection analysis. -/
def geminiDoc : PartialConfig :=
  { apiKey := some ""
    apiProvider := some "gemini"
    extractionModel := some "gemini-2.0-flash"
    solutionModel := some "gemini-2.0-flash"
    debuggingModel := some "gemini-2.0-flash"
    language := some "python"
    opacity := some 1 }

/-! ### Projection and stage lemmas -/

theorem updateConfig_ret (disk : Option PartialConfig) (u : PartialConfig)
    (b : Bool) :
    (updateConfig disk u b).ret =
      if b && willEmit (mutatedUpdates (loadConfig disk) u) then defaultConfig
      else mergeConfig (loadConfig disk) (mutatedUpdates (loadConfig disk) u) :=
  rfl

theorem updateConfig_emitted (disk : Option PartialConfig)
    (u : PartialConfig) (b : Bool) :
    (updateConfig disk u b).emitted =
      willEmit (mutatedUpdates (loadConfig disk) u) :=
  rfl

theorem updateConfig_finalUpdates (disk : Option PartialConfig)
    (u : PartialConfig) (b : Bool) :
    (updateConfig disk u b).finalUpdates =
      mutatedUpdates (loadConfig disk) u :=
  rfl

theorem updateConfig_disk (disk : Option PartialConfig) (u : PartialConfig)
    (b : Bool) :
    (updateConfig disk u b).disk =
      some (saveConfig
        (mergeConfig (loadConfig disk) (mutatedUpdates (loadConfig disk) u))) :=
  rfl

theorem recordProvider_apiKey (cur : Config) (u : PartialConfig) :
    (recordProvider cur u).apiKey = u.apiKey := by
  unfold recordProvider; split <;> rfl

theorem recordProvider_models (cur : Config) (u : PartialConfig) :
    (recordProvider cur u).extractionModel = u.extractionModel ∧
    (recordProvider cur u).solutionModel = u.solutionModel ∧
    (recordProvider cur u).debuggingModel = u.debuggingModel := by
  unfold recordProvider; split <;> exact ⟨rfl, rfl, rfl⟩

theorem recordProvider_language (cur : Config) (u : PartialConfig) :
    (recordProvider cur u).language = u.language := by
  unfold recordProvider; split <;> rfl

theorem applySwitchReset_apiKey (cur : Config) (u : PartialConfig) :
    (applySwitchReset cur u).apiKey = u.apiKey := by
  unfold applySwitchReset; split <;> rfl

theorem applySwitchReset_apiProvider (cur : Config) (u : PartialConfig) :
    (applySwitchReset cur u).apiProvider = u.apiProvider := by
  unfold applySwitchReset; split <;> rfl

theorem applySwitchReset_language (cur : Config) (u : PartialConfig) :
    (applySwitchReset cur u).language = u.language := by
  unfold applySwitchReset; split <;> rfl

theorem sanitizeUpdates_apiKey (u : PartialConfig) (provider : String) :
    (sanitizeUpdates u provider).apiKey = u.apiKey := rfl

theorem sanitizeUpdates_apiProvider (u : PartialConfig) (provider : String) :
    (sanitizeUpdates u provider).apiProvider = u.apiProvider := rfl

theorem sanitizeUpdates_language (u : PartialConfig) (provider : String) :
    (sanitizeUpdates u provider).language = u.language := rfl

theorem mergeConfig_apiProvider (c : Config) (u : PartialConfig) :
    (mergeConfig c u).apiProvider = u.apiProvider.getD c.apiProvider := rfl

theorem mutatedUpdates_apiKey (cur : Config) (u : PartialConfig) :
    (mutatedUpdates cur u).apiKey = u.apiKey := by
  unfold mutatedUpdates
  rw [sanitizeUpdates_apiKey, applySwitchReset_apiKey, recordProvider_apiKey]

/-- A provider accepted by the normalization step satisfies the validity
predicate in its propositional form. -/
theorem isValidProvider_iff (p : String) :
    isValidProvider p = true ↔
      p = "openai" ∨ p = "gemini" ∨ p = "anthropic" := by
  simp [isValidProvider, or_assoc]

/-- For a known provider, `sanitizeModelSelection` is the table lookup of
§4.3: keep an allow-listed model, otherwise substitute the fallback. -/
theorem sanitizeModelSelection_valid (model provider : String)
    (h : isValidProvider provider = true) :
    sanitizeModelSelection model provider =
      if (allowedModels provider).contains model then model
      else fallbackModel provider := by
  rcases (isValidProvider_iff provider).mp h with h1 | h1 | h1 <;> subst h1 <;>
    simp [sanitizeModelSelection, allowedModels, fallbackModel]

/-- Each known provider's fallback model is itself allow-listed. -/
theorem fallback_mem_allowed (provider : String)
    (h : isValidProvider provider = true) :
    (allowedModels provider).contains (fallbackModel provider) = true := by
  rcases (isValidProvider_iff provider).mp h with h1 | h1 | h1 <;> subst h1 <;>
    decide

/-- Allow-listed models of known providers are nonempty strings. -/
theorem allowed_ne_empty (model provider : String)
    (h : isValidProvider provider = true)
    (hm : (allowedModels provider).contains model = true) : model ≠ "" := by
  intro hemp
  subst hemp
  rcases (isValidProvider_iff provider).mp h with h1 | h1 | h1 <;> subst h1 <;>
    simp [allowedModels] at hm

/-- Allow-listed models of known providers pass sanitization unchanged. -/
theorem sanitize_of_allowed (model provider : String)
    (h : isValidProvider provider = true)
    (hm : (allowedModels provider).contains model = true) :
    sanitizeModelSelection model provider = model := by
  rw [sanitizeModelSelection_valid model provider h, if_pos hm]

/-! ### Claim theorems -/

/-- C3: for every model string and every provider among openai, gemini and
anthropic, `sanitizeModelSelection` keeps an allow-listed model unchanged,
replaces any other model by that provider's fallback, and always returns a
member of the provider's allow-list. -/
theorem C3_sanitize_model_selection_allowlist (model provider : String)
    (h : isValidProvider provider = true) :
    ((allowedModels provider).contains model = true →
      sanitizeModelSelection model provider = model) ∧
    ((allowedModels provider).contains model = false →
      sanitizeModelSelection model provider = fallbackModel provider) ∧
    (allowedModels provider).contains
      (sanitizeModelSelection model provider) = true := by
  refine ⟨fun hm => sanitize_of_allowed model provider h hm, fun hm => ?_, ?_⟩
  · rw [sanitizeModelSelection_valid model provider h,
      if_neg (by simpa using hm)]
  · rw [sanitizeModelSelection_valid model provider h]
    by_cases hm : (allowedModels provider).contains model = true
    · rw [if_pos hm]; exact hm
    · rw [if_neg (by simpa using hm)]
      exact fallback_mem_allowed provider h

/-- C3 witness: the theorem applied to the model gpt-4o and the provider
openai. -/
theorem C3_sanitize_model_selection_allowlist_witness :
    ((allowedModels "openai").contains "gpt-4o" = true →
      sanitizeModelSelection "gpt-4o" "openai" = "gpt-4o") ∧
    ((allowedModels "openai").contains "gpt-4o" = false →
      sanitizeModelSelection "gpt-4o" "openai" = fallbackModel "openai") ∧
    (allowedModels "openai").contains
      (sanitizeModelSelection "gpt-4o" "openai") = true :=
  C3_sanitize_model_selection_allowlist "gpt-4o" "openai" (by decide)

/-- Sanitization only maps the model fields, so it cannot change which
fields of the updates object are defined. -/
theorem willEmit_sanitizeUpdates (u : PartialConfig) (provider : String) :
    willEmit (sanitizeUpdates u provider) = willEmit u := by
  simp [willEmit, sanitizeUpdates, sanitizeField]

/-- The in-place mutations of `updateConfig` (provider recording and
provider-switch reset) only ever add fields that imply an already-defined
non-opacity field, so the emit guard is decided by the original updates. -/
theorem willEmit_mutatedUpdates (cur : Config) (u : PartialConfig) :
    willEmit (mutatedUpdates cur u) = willEmit u := by
  unfold mutatedUpdates
  rw [willEmit_sanitizeUpdates]
  by_cases h : autodetecting u = true
  · have hk : u.apiKey.isSome = true := by
      rcases hk2 : u.apiKey with _ | k
      · simp [autodetecting, truthy, hk2] at h
      · rfl
    have hrk : (applySwitchReset cur (recordProvider cur u)).apiKey
        = u.apiKey := by
      rw [applySwitchReset_apiKey, recordProvider_apiKey]
    simp [willEmit, hrk, hk]
  · have hr : recordProvider cur u = u := by
      unfold recordProvider
      simp [h]
    rw [hr]
    unfold applySwitchReset
    split
    next hcond =>
      have hp : u.apiProvider = some "openai" := by
        rcases Bool.and_eq_true_iff.mp hcond with ⟨_, h2⟩
        exact beq_iff_eq.mp h2
      simp [willEmit, hp]
    next => rfl

/-- C5: `updateConfig` emits the config-updated event exactly when the
partial update defines at least one field other than opacity; an update
defining only opacity is silent. -/
theorem C5_emit_iff_non_opacity_field_defined (disk : Option PartialConfig)
    (u : PartialConfig) :
    (updateConfig disk u false).emitted =
      (u.apiKey.isSome || u.apiProvider.isSome || u.extractionModel.isSome ||
       u.solutionModel.isSome || u.debuggingModel.isSome ||
       u.language.isSome) := by
  rw [updateConfig_emitted, willEmit_mutatedUpdates]
  rfl

/-- C2 counterexample: with a stored key differing from the compiled-in
default, an update whose notification throws returns the compiled-in
defaults, not the pre-update configuration. -/
theorem C2_error_fallback_not_pre_update_config :
    (updateConfig (some (saveConfig { defaultConfig with apiKey := "key-1" }))
        { language := some "java" } true).ret ≠
      loadConfig
        (some (saveConfig { defaultConfig with apiKey := "key-1" })) := by
  decide

/-- C2 amended: on an unexpected internal failure (a subscriber throwing
during the notification), `updateConfig` swallows the error and returns the
compiled-in default configuration. -/
theorem C2_error_returns_compiled_in_defaults (disk : Option PartialConfig)
    (u : PartialConfig) (h : (updateConfig disk u true).emitted = true) :
    (updateConfig disk u true).ret = defaultConfig := by
  rw [updateConfig_emitted] at h
  rw [updateConfig_ret, h]
  simp

/-- C2 witness: the amended theorem applied to a concrete update whose
notification throws. -/
theorem C2_error_returns_compiled_in_defaults_witness :
    (updateConfig (some (saveConfig { defaultConfig with apiKey := "key-1" }))
        { language := some "java" } true).emitted = true ∧
    (updateConfig (some (saveConfig { defaultConfig with apiKey := "key-1" }))
        { language := some "java" } true).ret = defaultConfig :=
  ⟨by decide,
   C2_error_returns_compiled_in_defaults
     (some (saveConfig { defaultConfig with apiKey := "key-1" }))
     { language := some "java" } (by decide)⟩

/-- C1: switching the provider from openai to gemini leaves the three model
fields at the openai values carried over from the current configuration
instead of resetting them to the gemini canonical default — the reset of
ConfigHelper.ts lines 188-198 only implements the openai branch, although
the comment above it announces a reset for any changed provider. -/
theorem C1_provider_switch_to_gemini_keeps_openai_models :
    (updateConfig (some (saveConfig defaultConfig))
        { apiProvider := some "gemini" } false).ret.apiProvider = "gemini" ∧
    (updateConfig (some (saveConfig defaultConfig))
        { apiProvider := some "gemini" } false).ret.extractionModel
      = "gpt-5" ∧
    (updateConfig (some (saveConfig defaultConfig))
        { apiProvider := some "gemini" } false).ret.solutionModel
      = "gpt-5" ∧
    (updateConfig (some (saveConfig defaultConfig))
        { apiProvider := some "gemini" } false).ret.debuggingModel
      = "gpt-5" ∧
    fallbackModel "gemini" = "gemini-2.0-flash" := by
  decide

/-- C4 counterexample: the supplied key does not begin with the literal
prefix sk- (it has a leading space) and the stored provider is gemini, yet
auto-detection classifies it as openai, because the source trims the key
before testing the prefix. -/
theorem C4_detection_ignores_leading_whitespace :
    jsStartsWith " sk-abc" "sk-" = false ∧
    (loadConfig (some geminiDoc)).apiProvider = "gemini" ∧
    (updateConfig (some geminiDoc)
        { apiKey := some " sk-abc" } false).ret.apiProvider = "openai" := by
  decide

/-- C4 amended: for a partial update supplying a nonempty apiKey and no
apiProvider, the effective provider is openai exactly when the key begins
with sk- after trimming surrounding whitespace, and otherwise the stored
provider is retained; the resolved provider is recorded back into the
partial update either way. -/
theorem C4_auto_detection_uses_trimmed_key (disk : Option PartialConfig)
    (u : PartialConfig) (k : String) (hk : u.apiKey = some k) (hne : k ≠ "")
    (hp : u.apiProvider = none) :
    (updateConfig disk u false).ret.apiProvider =
      (if jsStartsWith (jsTrim k) "sk-" then "openai"
       else (loadConfig disk).apiProvider) ∧
    (updateConfig disk u false).finalUpdates.apiProvider =
      some (if jsStartsWith (jsTrim k) "sk-" then "openai"
            else (loadConfig disk).apiProvider) := by
  have had : autodetecting u = true := by
    simp [autodetecting, truthy, hk, hp, hne]
  have heff : effectiveProvider (loadConfig disk) u =
      (if jsStartsWith (jsTrim k) "sk-" then "openai"
       else (loadConfig disk).apiProvider) := by
    simp [effectiveProvider, had, hk, hp]
  have hrec : (mutatedUpdates (loadConfig disk) u).apiProvider =
      some (effectiveProvider (loadConfig disk) u) := by
    unfold mutatedUpdates
    rw [sanitizeUpdates_apiProvider, applySwitchReset_apiProvider]
    unfold recordProvider
    simp [had]
  constructor
  · rw [updateConfig_ret]
    simp only [Bool.false_and, Bool.false_eq_true, if_false]
    rw [mergeConfig_apiProvider, hrec, heff]
    simp
  · rw [updateConfig_finalUpdates, hrec, heff]

/-- C4 witness: the amended theorem applied to the key sk-test supplied with
no provider over an absent configuration file. -/
theorem C4_auto_detection_uses_trimmed_key_witness :
    (updateConfig none { apiKey := some "sk-test" } false).ret.apiProvider =
      (if jsStartsWith (jsTrim "sk-test") "sk-" then "openai"
       else (loadConfig none).apiProvider) ∧
    (updateConfig none
        { apiKey := some "sk-test" } false).finalUpdates.apiProvider =
      some (if jsStartsWith (jsTrim "sk-test") "sk-" then "openai"
            else (loadConfig none).apiProvider) :=
  C4_auto_detection_uses_trimmed_key none { apiKey := some "sk-test" }
    "sk-test" rfl (by decide) rfl

/-- C10: a partial update whose apiKey is the empty string and which carries
no apiProvider skips auto-detection (the stored provider is retained and no
provider is recorded into the partial), performs no provider-switch model
reset (model fields absent from the partial keep their stored values), and
still emits the config-updated event. -/
theorem C10_empty_api_key_skips_detection_still_emits
    (disk : Option PartialConfig) (u : PartialConfig)
    (hk : u.apiKey = some "") (hp : u.apiProvider = none) :
    (updateConfig disk u false).ret.apiProvider =
      (loadConfig disk).apiProvider ∧
    (updateConfig disk u false).finalUpdates.apiProvider = none ∧
    (updateConfig disk u false).emitted = true ∧
    (u.extractionModel = none →
      (updateConfig disk u false).ret.extractionModel =
        (loadConfig disk).extractionModel) ∧
    (u.solutionModel = none →
      (updateConfig disk u false).ret.solutionModel =
        (loadConfig disk).solutionModel) ∧
    (u.debuggingModel = none →
      (updateConfig disk u false).ret.debuggingModel =
        (loadConfig disk).debuggingModel) := by
  have had : autodetecting u = false := by
    simp [autodetecting, truthy, hk]
  have hrec : recordProvider (loadConfig disk) u = u := by
    unfold recordProvider; simp [had]
  have hsw : applySwitchReset (loadConfig disk) u = u := by
    unfold applySwitchReset
    simp [switchingProvider, hp]
  have hm : mutatedUpdates (loadConfig disk) u =
      sanitizeUpdates u (effectiveProvider (loadConfig disk) u) := by
    unfold mutatedUpdates; rw [hrec, hsw]
  refine ⟨?_, ?_, ?_, fun he => ?_, fun he => ?_, fun he => ?_⟩
  · rw [updateConfig_ret]
    simp only [Bool.false_and, Bool.false_eq_true, if_false]
    rw [mergeConfig_apiProvider, hm, sanitizeUpdates_apiProvider, hp]
    rfl
  · rw [updateConfig_finalUpdates, hm, sanitizeUpdates_apiProvider, hp]
  · rw [updateConfig_emitted, willEmit_mutatedUpdates]
    simp [willEmit, hk]
  · rw [updateConfig_ret]
    simp only [Bool.false_and, Bool.false_eq_true, if_false]
    rw [hm]
    simp [mergeConfig, sanitizeUpdates, sanitizeField, he]
  · rw [updateConfig_ret]
    simp only [Bool.false_and, Bool.false_eq_true, if_false]
    rw [hm]
    simp [mergeConfig, sanitizeUpdates, sanitizeField, he]
  · rw [updateConfig_ret]
    simp only [Bool.false_and, Bool.false_eq_true, if_false]
    rw [hm]
    simp [mergeConfig, sanitizeUpdates, sanitizeField, he]

/-- C10 witness: the theorem applied to an update carrying only an empty
apiKey over an absent configuration file. -/
theorem C10_empty_api_key_skips_detection_still_emits_witness :
    (updateConfig none { apiKey := some "" } false).ret.apiProvider =
      (loadConfig none).apiProvider ∧
    (updateConfig none { apiKey := some "" } false).finalUpdates.apiProvider
      = none ∧
    (updateConfig none { apiKey := some "" } false).emitted = true ∧
    (({ apiKey := some "" } : PartialConfig).extractionModel = none →
      (updateConfig none { apiKey := some "" } false).ret.extractionModel =
        (loadConfig none).extractionModel) ∧
    (({ apiKey := some "" } : PartialConfig).solutionModel = none →
      (updateConfig none { apiKey := some "" } false).ret.solutionModel =
        (loadConfig none).solutionModel) ∧
    (({ apiKey := some "" } : PartialConfig).debuggingModel = none →
      (updateConfig none { apiKey := some "" } false).ret.debuggingModel =
        (loadConfig none).debuggingModel) :=
  C10_empty_api_key_skips_detection_still_emits none { apiKey := some "" }
    rfl rfl

/-- C6 counterexample: an empty on-disk document yields a configuration
whose apiProvider is not the compiled-in default provider — the missing
field is coerced to gemini, not backfilled from defaultConfig. -/
theorem C6_missing_provider_not_backfilled_from_defaults :
    (loadConfig (some {})).apiProvider ≠ defaultConfig.apiProvider := by
  decide

/-- C6 amended: for every on-disk document, loadConfig returns a full
configuration in which the six fields other than apiProvider are backfilled
from the compiled-in defaults when missing, while a missing apiProvider is
coerced to gemini; an absent or unparseable document yields the compiled-in
defaults wholesale. -/
theorem C6_total_coverage_with_gemini_provider_backfill
    (doc : PartialConfig) :
    (doc.apiKey = none →
      (loadConfig (some doc)).apiKey = defaultConfig.apiKey) ∧
    (doc.apiProvider = none →
      (loadConfig (some doc)).apiProvider = "gemini") ∧
    (doc.extractionModel = none →
      (loadConfig (some doc)).extractionModel
        = defaultConfig.extractionModel) ∧
    (doc.solutionModel = none →
      (loadConfig (some doc)).solutionModel = defaultConfig.solutionModel) ∧
    (doc.debuggingModel = none →
      (loadConfig (some doc)).debuggingModel
        = defaultConfig.debuggingModel) ∧
    (doc.language = none →
      (loadConfig (some doc)).language = defaultConfig.language) ∧
    (doc.opacity = none →
      (loadConfig (some doc)).opacity = defaultConfig.opacity) ∧
    loadConfig none = defaultConfig := by
  refine ⟨fun h => ?_, fun h => ?_, fun h => ?_, fun h => ?_, fun h => ?_,
    fun h => ?_, fun h => ?_, rfl⟩ <;>
    simp [loadConfig, loadConfigDoc, sanitizeField, h]

/-- C6 witness: the amended theorem applied to the empty document. -/
theorem C6_total_coverage_with_gemini_provider_backfill_witness :
    (({} : PartialConfig).apiKey = none →
      (loadConfig (some {})).apiKey = defaultConfig.apiKey) ∧
    (({} : PartialConfig).apiProvider = none →
      (loadConfig (some {})).apiProvider = "gemini") ∧
    (({} : PartialConfig).extractionModel = none →
      (loadConfig (some {})).extractionModel
        = defaultConfig.extractionModel) ∧
    (({} : PartialConfig).solutionModel = none →
      (loadConfig (some {})).solutionModel = defaultConfig.solutionModel) ∧
    (({} : PartialConfig).debuggingModel = none →
      (loadConfig (some {})).debuggingModel
        = defaultConfig.debuggingModel) ∧
    (({} : PartialConfig).language = none →
      (loadConfig (some {})).language = defaultConfig.language) ∧
    (({} : PartialConfig).opacity = none →
      (loadConfig (some {})).opacity = defaultConfig.opacity) ∧
    loadConfig none = defaultConfig :=
  C6_total_coverage_with_gemini_provider_backfill {}

/-- C7 counterexample: an invalid stored provider is normalized to a
provider different from the compiled-in initial default. -/
theorem C7_normalization_target_differs_from_initial_default :
    (loadConfig (some { apiProvider := some "bogus" })).apiProvider ≠
      defaultConfig.apiProvider := by
  decide

/-- C7 amended: a missing or invalid stored apiProvider is replaced by
gemini before the model fields are sanitized against it — and gemini is not
the provider used as the compiled-in initial default, which is openai. -/
theorem C7_invalid_provider_coerces_to_gemini (doc : PartialConfig)
    (h : (doc.apiProvider.map isValidProvider).getD false = false) :
    (loadConfig (some doc)).apiProvider = "gemini" ∧
    (loadConfig (some doc)).extractionModel =
      (sanitizeField doc.extractionModel "gemini").getD
        defaultConfig.extractionModel ∧
    (loadConfig (some doc)).solutionModel =
      (sanitizeField doc.solutionModel "gemini").getD
        defaultConfig.solutionModel ∧
    (loadConfig (some doc)).debuggingModel =
      (sanitizeField doc.debuggingModel "gemini").getD
        defaultConfig.debuggingModel ∧
    defaultConfig.apiProvider = "openai" := by
  rcases hap : doc.apiProvider with _ | p
  · refine ⟨?_, ?_, ?_, ?_, rfl⟩ <;> simp [loadConfig, loadConfigDoc, hap]
  · rw [hap] at h
    simp only [Option.map_some', Option.getD_some] at h
    have h3 : ¬(p = "openai" ∨ p = "gemini" ∨ p = "anthropic") := fun hc => by
      simp [(isValidProvider_iff p).mpr hc] at h
    refine ⟨?_, ?_, ?_, ?_, rfl⟩ <;>
      simp [loadConfig, loadConfigDoc, hap, h3]

/-- C7 witness: the amended theorem applied to a document storing the
unknown provider bogus. -/
theorem C7_invalid_provider_coerces_to_gemini_witness :
    (loadConfig (some { apiProvider := some "bogus" })).apiProvider
      = "gemini" ∧
    (loadConfig (some { apiProvider := some "bogus" })).extractionModel =
      (sanitizeField ({ apiProvider := some "bogus" }
          : PartialConfig).extractionModel "gemini").getD
        defaultConfig.extractionModel ∧
    (loadConfig (some { apiProvider := some "bogus" })).solutionModel =
      (sanitizeField ({ apiProvider := some "bogus" }
          : PartialConfig).solutionModel "gemini").getD
        defaultConfig.solutionModel ∧
    (loadConfig (some { apiProvider := some "bogus" })).debuggingModel =
      (sanitizeField ({ apiProvider := some "bogus" }
          : PartialConfig).debuggingModel "gemini").getD
        defaultConfig.debuggingModel ∧
    defaultConfig.apiProvider = "openai" :=
  C7_invalid_provider_coerces_to_gemini { apiProvider := some "bogus" }
    (by decide)

/-- C8: setOpacity stores the value clamped to the interval from 0.1 to 1.0
(values below 0.1 become 0.1, values above 1.0 become 1.0), and getOpacity
reads back the stored opacity, or 1.0 when the stored field is absent. -/
theorem C8_opacity_clamp_and_read (disk : Option PartialConfig) (v : ℚ)
    (doc : PartialConfig) :
    getOpacity ((setOpacity disk v).disk) = min 1 (max (1/10) v) ∧
    (v < 1/10 → getOpacity ((setOpacity disk v).disk) = 1/10) ∧
    (1 < v → getOpacity ((setOpacity disk v).disk) = 1) ∧
    getOpacity (some doc) = doc.opacity.getD 1 ∧
    getOpacity none = 1 := by
  have h1 : getOpacity ((setOpacity disk v).disk) = min 1 (max (1/10) v) := by
    unfold setOpacity
    rw [updateConfig_disk]
    simp [getOpacity, loadConfig, loadConfigDoc, saveConfig, mergeConfig,
      mutatedUpdates, sanitizeUpdates, sanitizeField, recordProvider,
      applySwitchReset, switchingProvider, autodetecting, truthy]
  refine ⟨h1, fun hv => ?_, fun hv => ?_, ?_, rfl⟩
  · rw [h1, max_eq_left hv.le, min_eq_right (by norm_num : (1/10 : ℚ) ≤ 1)]
  · rw [h1, max_eq_right ((by norm_num : (1/10 : ℚ) ≤ 1).trans hv.le),
      min_eq_left hv.le]
  · simp [getOpacity, loadConfig, loadConfigDoc, defaultConfig]

/-- C8 witness: the theorem applied at the out-of-range writes 5.0 and -1
of the spec's clamping example. -/
theorem C8_opacity_clamp_and_read_witness :
    ((1 : ℚ) < 5 ∧ getOpacity ((setOpacity none 5).disk) = 1) ∧
    ((-1 : ℚ) < 1/10 ∧ getOpacity ((setOpacity none (-1)).disk) = 1/10) :=
  ⟨⟨by norm_num, (C8_opacity_clamp_and_read none 5 {}).2.2.1 (by norm_num)⟩,
   ⟨by norm_num,
    (C8_opacity_clamp_and_read none (-1) {}).2.1 (by norm_num)⟩⟩

/-- C9: saving a full configuration whose provider is one of the three
known providers and whose three model fields are allow-listed for it, then
reloading, returns the saved configuration unchanged. -/
theorem C9_save_load_round_trip (c : Config)
    (hp : isValidProvider c.apiProvider = true)
    (he : (allowedModels c.apiProvider).contains c.extractionModel = true)
    (hs : (allowedModels c.apiProvider).contains c.solutionModel = true)
    (hd : (allowedModels c.apiProvider).contains c.debuggingModel = true) :
    loadConfig (some (saveConfig c)) = c := by
  have hp3 := (isValidProvider_iff _).mp hp
  have he1 := sanitize_of_allowed _ _ hp he
  have he2 := allowed_ne_empty _ _ hp he
  have hs1 := sanitize_of_allowed _ _ hp hs
  have hs2 := allowed_ne_empty _ _ hp hs
  have hd1 := sanitize_of_allowed _ _ hp hd
  have hd2 := allowed_ne_empty _ _ hp hd
  obtain ⟨k, p, e, s, d, l, o⟩ := c
  simp [loadConfig, loadConfigDoc, saveConfig, sanitizeField, hp3,
    he1, he2, hs1, hs2, hd1, hd2]

/-- C9 witness: the round trip at the compiled-in default configuration. -/
theorem C9_save_load_round_trip_witness :
    loadConfig (some (saveConfig defaultConfig)) = defaultConfig :=
  C9_save_load_round_trip defaultConfig (by decide) (by decide) (by decide)
    (by decide)
